import Mathlib

/-!
# AutoDJ transition planning: shallow embedding and verification

This file embeds the decision core of the AutoDJ repository
(`autodj_transition_engine.py` and the cue-point generation of
`autodj_analyzer.py`) as executable Lean definitions and proves the
spec's testable properties against them.

Modelling conventions:
* Python floats are modelled as exact rationals (`ℚ`); every numeric
  literal of the source (`0.3`, `1.06`, …) is written as the
  corresponding rational.
* Python dictionaries with optional keys (`track.get('bpm', 120)`) are
  modelled as structures with `Option` fields; `.get(k, d)` becomes
  `Option.getD`.
* Python's `try/except` fallbacks are modelled as explicit branches at
  the exact program points where an exception can arise (division by
  zero); points where no exception can arise for type-correct inputs
  carry no branch.
-/

namespace AutoDJ

/-- A `{start, end}` interval dictionary (vocal segment, intro, outro). -/
structure Seg where
  start : ℚ
  «end» : ℚ
deriving Repr, DecidableEq

/-- A track analysis record as consumed by the transition engine
(`plan_transition` and its helpers read these keys with `.get`,
so every field is optional; lists default to empty). -/
structure Track where
  bpm : Option ℚ := none
  camelot : Option String := none
  duration : Option ℚ := none
  cue_in : Option ℚ := none
  cue_out : Option ℚ := none
  beatgrid : List ℚ := []
  downbeats : List ℚ := []
  vocals : List Seg := []
  intro : Option Seg := none
  outro : Option Seg := none
deriving Repr

/-- The `tempo` sub-dictionary of a compatibility report.  The fallback
reports of the engine populate only some keys, hence `Option` fields. -/
structure TempoInfo where
  bpm_a : Option ℚ := none
  bpm_b : Option ℚ := none
  difference : Option ℚ := none
  ratio : Option ℚ := none
  compatibility : Option String := none
deriving Repr

/-- The `harmonic` sub-dictionary of a compatibility report. -/
structure HarmonicInfo where
  key_a : Option String := none
  key_b : Option String := none
  compatibility : Option String := none
deriving Repr

/-- A compatibility report dictionary.  `_create_fallback_plan` builds one
with only `overall_score` and `mixable`, so the sub-dictionaries are
optional. -/
structure CompatReport where
  tempo : Option TempoInfo := none
  harmonic : Option HarmonicInfo := none
  overall_score : Option ℚ := none
  mixable : Option Bool := none
deriving Repr

/-- A transition-timing dictionary.  `_calculate_transition_timing`
populates all six keys; `_create_fallback_plan` populates only three. -/
structure Timing where
  start_time : Option ℚ := none
  end_time : Option ℚ := none
  mix_duration : Option ℚ := none
  track_a_out : Option ℚ := none
  track_b_in : Option ℚ := none
  overlap_duration : Option ℚ := none
deriving Repr

/-- A transition-style dictionary.  Only `name` and `description` are
present in every style the source constructs. -/
structure Style where
  name : String
  description : String
  mix_curve : Option String := none
  use_stems : Option Bool := none
  eq_transition : Option Bool := none
  add_echo : Option Bool := none
  add_filter : Option Bool := none
deriving Repr

/-- A beatmatch-plan dictionary.  `_create_fallback_plan` builds one with
only `stretch_needed` and `sync_method`, hence the optional fields. -/
structure Beatmatch where
  stretch_needed : Bool
  target_bpm : Option ℚ := none
  stretch_factor_a : Option ℚ := none
  stretch_factor_b : Option ℚ := none
  sync_method : String
deriving Repr

/-- A per-stem fade descriptor (`{'fade': ..., 'delay': ..., 'duration_factor': ...}`). -/
structure FadeSpec where
  fade : String
  delay : ℚ
  duration_factor : Option ℚ := none
deriving Repr

/-- The per-track part of a stem-mix plan.  The fallback plan uses the
flat `{'fade': ...}` shape; the full planner uses the per-stem keys. -/
structure StemTrack where
  fade : Option String := none
  vocals : Option FadeSpec := none
  drums : Option FadeSpec := none
  bass : Option FadeSpec := none
  other : Option FadeSpec := none
deriving Repr

/-- A stem-mix plan dictionary. -/
structure StemPlan where
  track_a : StemTrack
  track_b : StemTrack
deriving Repr

/-- A single effect descriptor attached by `_plan_effects`. -/
structure Effect where
  type : String
  params : List (String × ℚ) := []
deriving Repr

/-- The effects dictionary (`{'track_a': [...], 'track_b': [...]}`). -/
structure Effects where
  track_a : List Effect := []
  track_b : List Effect := []
deriving Repr

/-- A complete transition plan as returned by `plan_transition`. -/
structure Plan where
  compatibility : CompatReport
  timing : Timing
  style : Style
  beatmatch : Beatmatch
  stem_plan : StemPlan
  effects : Effects
  success_probability : ℚ
deriving Repr

/-! ## Compatibility analyzer (`_analyze_compatibility`) -/

/-- The tempo-compatibility classification of `_analyze_compatibility`
(lines 108-121): `tempo_diff = abs(bpm_a - bpm_b)`,
`tempo_ratio = max/min`, then the five-way ladder.  The two locals are
inlined into the conditions. -/
def tempoCompatibility (bpm_a bpm_b : ℚ) : String :=
  if |bpm_a - bpm_b| ≤ 2 then "perfect"
  else if |bpm_a - bpm_b| ≤ 6 then "good"
  else if max bpm_a bpm_b / min bpm_a bpm_b ≤ 106/100 then "acceptable"
  else if max bpm_a bpm_b / min bpm_a bpm_b ≤ 2 ∧ |bpm_a - bpm_b / 2| ≤ 6 then "half_time"
  else "poor"

/-- Python's `int(s)` restricted to the shapes that can reach it here:
an optional sign followed by decimal digits (no digits, or any other
character, raises `ValueError`, modelled as `none`). -/
def pythonInt? (s : String) : Option Int :=
  let digitsToNat : List Char → Option Nat := fun cs =>
    if cs ≠ [] ∧ cs.all (fun c => c.isDigit) then
      some (cs.foldl (fun acc c => acc * 10 + (c.toNat - 48)) 0)
    else none
  match s.data with
  | '+' :: rest => (digitsToNat rest).map (fun n => (n : Int))
  | '-' :: rest => (digitsToNat rest).map (fun n => -(n : Int))
  | cs => (digitsToNat cs).map (fun n => (n : Int))

/-- The `num, letter = int(key[:-1]), key[-1]` extraction of
`_check_harmonic_compatibility`; `ValueError`/`IndexError` (empty
string, non-numeric prefix) is modelled as `none`. -/
def parseCamelot (s : String) : Option (Int × Char) :=
  if s.isEmpty then none
  else
    match pythonInt? (s.dropRight 1) with
    | some n => some (n, s.back)
    | none => none

/-- The classification of `_check_harmonic_compatibility` after both
codes parsed (lines 177-189): relative, compatible, boost/drop, clash. -/
def camelotClass (num_a : Int) (letter_a : Char) (num_b : Int) (letter_b : Char) : String :=
  if num_a = num_b ∧ letter_a ≠ letter_b then "relative"
  else if letter_a = letter_b then
    if (num_a - num_b).natAbs = 1 ∨ (num_a - num_b).natAbs = 11 then "compatible"
    else if (num_a - num_b).natAbs = 7 ∨ (num_a - num_b).natAbs = 5 then
      (if num_b > num_a then "boost" else "drop")
    else "clash"
  else "clash"

/-- `_check_harmonic_compatibility` (lines 162-192). -/
def checkHarmonicCompatibility (key_a key_b : String) : String :=
  if key_a = "Unknown" ∨ key_b = "Unknown" then "unknown"
  else if key_a = key_b then "perfect"
  else
    match parseCamelot key_a, parseCamelot key_b with
    | some (num_a, letter_a), some (num_b, letter_b) =>
        camelotClass num_a letter_a num_b letter_b
    | _, _ => "unknown"

/-- The tempo-score lookup `{'perfect': 1.0, 'good': 0.9, 'acceptable': 0.7,
'half_time': 0.6, 'poor': 0.3}` with default `0.3`. -/
def tempoScore (c : String) : ℚ :=
  if c = "perfect" then 1 else if c = "good" then 9/10
  else if c = "acceptable" then 7/10 else if c = "half_time" then 6/10
  else if c = "poor" then 3/10 else 3/10

/-- The harmonic-score lookup `{'perfect': 1.0, 'compatible': 0.8,
'relative': 0.7, 'boost': 0.6, 'clash': 0.2}` with default `0.2`. -/
def harmonicScore (c : String) : ℚ :=
  if c = "perfect" then 1 else if c = "compatible" then 8/10
  else if c = "relative" then 7/10 else if c = "boost" then 6/10
  else if c = "clash" then 2/10 else 2/10

/-- `_analyze_compatibility` (lines 99-160).  The only statement of the
`try` body that can raise for type-correct inputs is
`tempo_ratio = max/min` when the smaller BPM is `0`
(`ZeroDivisionError`); the `except` branch then returns the neutral
report, modelled by the explicit zero test. -/
def analyzeCompatibility (track_a track_b : Track) : CompatReport :=
  let bpm_a := track_a.bpm.getD 120
  let bpm_b := track_b.bpm.getD 120
  if min bpm_a bpm_b = 0 then
    { tempo := some { compatibility := some "unknown" },
      harmonic := some { compatibility := some "unknown" },
      overall_score := some (1/2), mixable := some true }
  else
    let tempo_diff := |bpm_a - bpm_b|
    let tempo_ratio := max bpm_a bpm_b / min bpm_a bpm_b
    let tempo_compat := tempoCompatibility bpm_a bpm_b
    let key_a := track_a.camelot.getD "Unknown"
    let key_b := track_b.camelot.getD "Unknown"
    let harmonic_compat := checkHarmonicCompatibility key_a key_b
    let overall_score := (tempoScore tempo_compat + harmonicScore harmonic_compat) / 2
    { tempo := some { bpm_a := some bpm_a, bpm_b := some bpm_b,
                      difference := some tempo_diff, ratio := some tempo_ratio,
                      compatibility := some tempo_compat },
      harmonic := some { key_a := some key_a, key_b := some key_b,
                         compatibility := some harmonic_compat },
      overall_score := some overall_score,
      mixable := some (decide ((1:ℚ)/2 < overall_score)) }

/-! ## Timing calculator (`_calculate_transition_timing`) -/

/-- Python truthiness of the optional float `force_time`
(`None` and `0.0` are falsy). -/
def truthyOpt : Option ℚ → Bool
  | none => false
  | some x => decide (x ≠ 0)

/-- `_find_next_phrase_boundary` (lines 244-270): first future downbeat
within 30 s, else the first future beat, else `current_time + 4.0`. -/
def findNextPhraseBoundary (track : Track) (current_time : ℚ) : ℚ :=
  let future_downbeats := track.downbeats.filter (fun beat => current_time < beat)
  match future_downbeats.find? (fun downbeat => decide (downbeat - current_time ≤ 30)) with
  | some downbeat => downbeat
  | none =>
    match track.beatgrid.filter (fun beat => current_time < beat) with
    | beat :: _ => beat
    | [] => current_time + 4

/-- `_calculate_transition_timing` (lines 194-242), happy path (no
statement of the `try` body can raise for type-correct inputs). -/
def calcTransitionTiming (track_a track_b : Track) (transition_type : String)
    (force_time : Option ℚ) : Timing :=
  let duration_a := track_a.duration.getD 180
  let cue_out_a := track_a.cue_out.getD (duration_a - 16)
  let cue_in_b := track_b.cue_in.getD 8
  let sm : ℚ × ℚ :=
    if transition_type = "auto" then (cue_out_a - 16, 16)
    else if transition_type = "quick" ∧ truthyOpt force_time = true then
      (findNextPhraseBoundary track_a (force_time.getD 0), 8)
    else (max (duration_a - 20) (duration_a * (8/10)), 12)
  let start_time := max 0 (min sm.1 (duration_a - 4))
  let end_time := start_time + sm.2
  { start_time := some start_time, end_time := some end_time,
    mix_duration := some sm.2, track_a_out := some end_time,
    track_b_in := some cue_in_b, overlap_duration := some sm.2 }

/-! ## Style selector (`_select_transition_style`) -/

/-- `_select_transition_style` (lines 272-337), happy path. -/
def selectTransitionStyle (track_a track_b : Track) (compatibility : CompatReport) : Style :=
  let score := compatibility.overall_score.getD (1/2)
  let tempo_compat := (compatibility.tempo.getD {}).compatibility.getD "unknown"
  let intro_b := (match track_b.intro with | some s => s.«end» | none => 0)
               - (match track_b.intro with | some s => s.start | none => 0)
  let _outro_a := (match track_a.outro with | some s => s.«end» | none => 0)
               - (match track_a.outro with | some s => s.start | none => 0)
  if 8/10 ≤ score ∧ (tempo_compat = "perfect" ∨ tempo_compat = "good") then
    { name := "crossfade",
      description := "Professional crossfade with EQ and stem control",
      mix_curve := some "equal_power", use_stems := some true,
      eq_transition := some true }
  else if 6/10 ≤ score ∧ 8 < intro_b then
    { name := "echo_out",
      description := "Echo tail on outgoing track, clean drop-in",
      mix_curve := some "linear", use_stems := some true,
      add_echo := some true }
  else if tempo_compat = "poor" then
    { name := "slam", description := "Hard cut with filter effects",
      mix_curve := some "immediate", use_stems := some false,
      add_filter := some true }
  else
    { name := "quick_cut", description := "Beat-aligned quick transition",
      mix_curve := some "fast_fade", use_stems := some true,
      eq_transition := some false }

/-! ## Beatmatch planner (`_plan_beatmatching`) -/

/-- `_plan_beatmatching` (lines 339-396).  In the middle branch,
`target_bpm / bpm_a` (or `/ bpm_b`) raises `ZeroDivisionError` when that
BPM is `0`; the `except` branch then returns the natural-sync fallback,
modelled by the explicit zero test. -/
def planBeatmatching (track_a track_b : Track) (timing : Timing) : Beatmatch :=
  let bpm_a := track_a.bpm.getD 120
  let bpm_b := track_b.bpm.getD 120
  let tempo_diff := |bpm_a - bpm_b|
  if tempo_diff ≤ 2 then
    { stretch_needed := false, target_bpm := some bpm_a,
      stretch_factor_a := some 1, stretch_factor_b := some 1,
      sync_method := "natural" }
  else if tempo_diff ≤ 6 then
    if bpm_a = 0 ∨ bpm_b = 0 then
      { stretch_needed := false, target_bpm := some 120,
        stretch_factor_a := some 1, stretch_factor_b := some 1,
        sync_method := "natural" }
    else
      let target_bpm := (bpm_a + bpm_b) / 2
      let stretch_a := max (94/100) (min (106/100) (target_bpm / bpm_a))
      let stretch_b := max (94/100) (min (106/100) (target_bpm / bpm_b))
      { stretch_needed := true, target_bpm := some target_bpm,
        stretch_factor_a := some stretch_a, stretch_factor_b := some stretch_b,
        sync_method := "time_stretch" }
  else
    { stretch_needed := false, target_bpm := some bpm_b,
      stretch_factor_a := some 1, stretch_factor_b := some 1,
      sync_method := "none" }

/-! ## Success scorer and fallback plan -/

/-- The tempo-bonus lookup of `_calculate_success_probability`
(`{'perfect': 0.2, 'good': 0.1, 'acceptable': 0.0, 'poor': -0.2}` with
default `0`). -/
def tempoBonus (c : String) : ℚ :=
  if c = "perfect" then 2/10 else if c = "good" then 1/10
  else if c = "acceptable" then 0 else if c = "poor" then -(2/10) else 0

/-- `_calculate_success_probability` (lines 513-542), happy path. -/
def calcSuccessProbability (compatibility : CompatReport) (timing : Timing) : ℚ :=
  let base_score := compatibility.overall_score.getD (1/2)
  let mix_duration := timing.mix_duration.getD 8
  let timing_bonus : ℚ := if 8 ≤ mix_duration ∧ mix_duration ≤ 16 then 1/10 else -(1/10)
  let tempo_compat := (compatibility.tempo.getD {}).compatibility.getD "unknown"
  let success_prob := base_score + timing_bonus + tempoBonus tempo_compat
  max 0 (min 1 success_prob)

/-- `_create_fallback_plan` (lines 544-574). -/
def createFallbackPlan (track_a : Track) (track_b : Track) : Plan :=
  let duration_a := track_a.duration.getD 180
  { compatibility := { overall_score := some (1/2), mixable := some true },
    timing := { start_time := some (max 0 (duration_a - 12)),
                mix_duration := some 8, track_b_in := some 8 },
    style := { name := "quick_cut", description := "Safe fallback transition" },
    beatmatch := { stretch_needed := false, sync_method := "none" },
    stem_plan := { track_a := { fade := some "linear_out" },
                   track_b := { fade := some "linear_in" } },
    effects := {},
    success_probability := 7/10 }

/-- The `try/except` wrapper of `plan_transition` (lines 61-97): if the
body raises, the exception is swallowed and `_create_fallback_plan` is
returned; otherwise the body's plan is returned unchanged. -/
def planTransitionHandle (track_a track_b : Track) (body : Except String Plan) : Plan :=
  match body with
  | Except.ok plan => plan
  | Except.error _ => createFallbackPlan track_a track_b

/-! ## Cue-point generation (`_generate_cue_points` of `autodj_analyzer.py`) -/

/-- The analysis dictionary as read by `_generate_cue_points`; the happy
path indexes these five keys directly. -/
structure Analysis where
  duration : ℚ
  beatgrid : List ℚ
  vocals : List Seg
  intro : Seg
  outro : Seg
deriving Repr

/-- The cue-point dictionary returned by `_generate_cue_points`. -/
structure CuePoints where
  cue_in : ℚ
  cue_out : ℚ
  mix_length : ℚ
deriving Repr

/-- `min(l)` of Python for a non-empty list (`d` is returned for `[]`,
which the call sites never pass). -/
def pyMin (l : List ℚ) (d : ℚ) : ℚ :=
  match l with
  | [] => d
  | x :: xs => xs.foldl min x

/-- The cue-in beat alignment (lines 499-503): among beats `≥ cue_in`,
take the one whose distance to `cue_in` is minimal, first occurrence
winning (`list.index(min(...))`). -/
def snapCueIn (beatgrid : List ℚ) (cue_in : ℚ) : ℚ :=
  if beatgrid = [] then cue_in
  else
    let beats := beatgrid.filter (fun beat => cue_in ≤ beat)
    let beat_diffs := beats.map (fun beat => |beat - cue_in|)
    if beat_diffs = [] then cue_in
    else
      let min_idx := beat_diffs.findIdx (fun d => d = pyMin beat_diffs 0)
      beats.getD min_idx cue_in

/-- The cue-out beat alignment (lines 518-522): among beats `≤ cue_out`,
take the one whose distance to `cue_out` is minimal, first occurrence
winning. -/
def snapCueOut (beatgrid : List ℚ) (cue_out : ℚ) : ℚ :=
  if beatgrid = [] then cue_out
  else
    let beats := beatgrid.filter (fun beat => beat ≤ cue_out)
    let beat_diffs := beats.map (fun beat => |beat - cue_out|)
    if beat_diffs = [] then cue_out
    else
      let min_idx := beat_diffs.findIdx (fun d => d = pyMin beat_diffs 0)
      beats.getD min_idx cue_out

/-- The vocal-avoidance loop of `_generate_cue_points` (lines 509-515),
already over the reversed vocal list: a segment ending strictly before
the candidate moves the candidate to `segment.end + 2.0` and stops the
loop, but only when that point lies strictly before `outro.start`;
otherwise the walk continues with the candidate unchanged. -/
def avoidVocalsAux : List Seg → ℚ → ℚ → ℚ
  | [], cue_out, _ => cue_out
  | vocal :: rest, cue_out, outro_start =>
    if vocal.«end» < cue_out then
      if vocal.«end» + 2 < outro_start then vocal.«end» + 2
      else avoidVocalsAux rest cue_out outro_start
    else avoidVocalsAux rest cue_out outro_start

/-- `_generate_cue_points` (lines 484-543), happy path (all five keys
present; no statement of the body can then raise). -/
def generateCuePoints (analysis : Analysis) : CuePoints :=
  let duration := analysis.duration
  let beatgrid := analysis.beatgrid
  let vocals := analysis.vocals
  let intro := analysis.intro
  let outro := analysis.outro
  let cue_in0 := intro.«end»
  let cue_in1 := snapCueIn beatgrid cue_in0
  let cue_out0 := outro.start
  let cue_out1 := avoidVocalsAux vocals.reverse cue_out0 outro.start
  let cue_out2 := snapCueOut beatgrid cue_out1
  let cue_in := max 0 (min cue_in1 (duration * (3/10)))
  let cue_out := max (duration * (7/10)) (min cue_out2 duration)
  { cue_in := cue_in, cue_out := cue_out,
    mix_length := max 8 ((cue_out - cue_in) * (1/10)) }

/-! ## Concrete tracks and analyses used by the worked examples -/

/-- Track A of the spec's §8 pairing example (`bpm=128`, `camelot="8B"`). -/
def trackA_ex : Track := { bpm := some 128, camelot := some "8B" }

/-- Track B of the spec's §8 pairing example (`bpm=130`, `camelot="9B"`). -/
def trackB_ex : Track := { bpm := some 130, camelot := some "9B" }

/-- The spec's §8 cue-out example: vocal `{start:150, end:170}`,
`outro.start = 160`, empty beatgrid, 200 s duration. -/
def analysis_ex : Analysis :=
  { duration := 200, beatgrid := [], vocals := [⟨150, 170⟩],
    intro := ⟨0, 8⟩, outro := ⟨160, 200⟩ }

/-- A track record with only a (short) duration, for the timing claims. -/
def shortTrack : Track := { duration := some 10 }

/-- A track record with every key absent. -/
def emptyTrack : Track := {}

/-- A track at 120 BPM. -/
def track120 : Track := { bpm := some 120 }

/-- A track at 124 BPM. -/
def track124 : Track := { bpm := some 124 }

/-! ## Helper lemmas for the harmonic-symmetry claim -/

/-- Swapping the two parsed Camelot codes either preserves the class
(and the class is not `boost`/`drop`) or exchanges `boost` and `drop`. -/
theorem camelotClass_swap_spec (na nb : Int) (la lb : Char) :
    (camelotClass nb lb na la = camelotClass na la nb lb ∧
      camelotClass na la nb lb ≠ "boost" ∧ camelotClass na la nb lb ≠ "drop") ∨
    (camelotClass na la nb lb = "boost" ∧ camelotClass nb lb na la = "drop") ∨
    (camelotClass na la nb lb = "drop" ∧ camelotClass nb lb na la = "boost") := by
  have hd : (nb - na).natAbs = (na - nb).natAbs := by omega
  unfold camelotClass
  rw [hd]
  by_cases hn : na = nb
  · subst hn
    by_cases hl : la = lb
    · subst hl
      left
      refine ⟨rfl, ?_, ?_⟩ <;> simp
    · left
      rw [if_pos ⟨rfl, fun hx => hl hx.symm⟩, if_pos ⟨rfl, hl⟩]
      exact ⟨rfl, by decide, by decide⟩
  · have hA : ¬(na = nb ∧ la ≠ lb) := fun hx => hn hx.1
    have hA' : ¬(nb = na ∧ lb ≠ la) := fun hx => hn hx.1.symm
    rw [if_neg hA, if_neg hA']
    by_cases hl : la = lb
    · rw [if_pos hl, if_pos hl.symm]
      by_cases h1 : (na - nb).natAbs = 1 ∨ (na - nb).natAbs = 11
      · rw [if_pos h1, if_pos h1]
        exact Or.inl ⟨rfl, by decide, by decide⟩
      · rw [if_neg h1, if_neg h1]
        by_cases h2 : (na - nb).natAbs = 7 ∨ (na - nb).natAbs = 5
        · rw [if_pos h2, if_pos h2]
          rcases lt_trichotomy na nb with hlt | heq | hgt
          · rw [if_pos hlt, if_neg (show ¬ na > nb by omega)]
            exact Or.inr (Or.inl ⟨rfl, rfl⟩)
          · exact absurd heq hn
          · rw [if_neg (show ¬ nb > na by omega), if_pos hgt]
            exact Or.inr (Or.inr ⟨rfl, rfl⟩)
        · rw [if_neg h2, if_neg h2]
          exact Or.inl ⟨rfl, by decide, by decide⟩
    · rw [if_neg hl, if_neg (fun hx => hl hx.symm)]
      exact Or.inl ⟨rfl, by decide, by decide⟩

/-- For two distinct, non-`Unknown` codes, `_check_harmonic_compatibility`
either fails to parse one of them (result `unknown`) or reduces to
`camelotClass` on the parsed values. -/
theorem checkHarmonic_cases (key_a key_b : String)
    (hu : ¬(key_a = "Unknown" ∨ key_b = "Unknown")) (he : key_a ≠ key_b) :
    (parseCamelot key_a = none ∧ checkHarmonicCompatibility key_a key_b = "unknown") ∨
    (parseCamelot key_b = none ∧ checkHarmonicCompatibility key_a key_b = "unknown") ∨
    (∃ na la nb lb, parseCamelot key_a = some (na, la) ∧ parseCamelot key_b = some (nb, lb) ∧
      checkHarmonicCompatibility key_a key_b = camelotClass na la nb lb) := by
  unfold checkHarmonicCompatibility
  rw [if_neg hu, if_neg he]
  rcases hpa : parseCamelot key_a with _ | ⟨na, la⟩
  · exact Or.inl ⟨rfl, rfl⟩
  · rcases hpb : parseCamelot key_b with _ | ⟨nb, lb⟩
    · exact Or.inr (Or.inl ⟨rfl, rfl⟩)
    · exact Or.inr (Or.inr ⟨na, la, nb, lb, rfl, rfl, rfl⟩)

/-! ## Claim theorems -/

/-- C1 (counterexample): tempo-compatibility classification is not
symmetric for all five classes.  At the positive pair `(60, 120)` the
class is `half_time`, but at `(120, 60)` it is `poor` (the half-time
test `|bpm_a - bpm_b/2| ≤ 6` only looks for the half tempo on the first
argument). -/
theorem C1_tempo_symmetry_counterexample :
    (0:ℚ) < 60 ∧ (0:ℚ) < 120 ∧ tempoCompatibility 60 120 = "half_time"
    ∧ tempoCompatibility 120 60 = "poor"
    ∧ tempoCompatibility 60 120 ≠ tempoCompatibility 120 60 := by
  have e1 : tempoCompatibility 60 120 = "half_time" := by norm_num [tempoCompatibility]
  have e2 : tempoCompatibility 120 60 = "poor" := by norm_num [tempoCompatibility]
  exact ⟨by norm_num, by norm_num, e1, e2, by rw [e1, e2]; decide⟩

/-- C1 (amended): tempo-compatibility classification is symmetric for
the classes `perfect`, `good` and `acceptable` — for positive BPM pairs,
whenever `(bpmA, bpmB)` is classified as one of these three, swapping
the arguments gives the same class.  Symmetry does not extend to
`half_time`/`poor` (see the counterexample). -/
theorem C1_tempo_symmetry_amended (a b : ℚ) (ha : 0 < a) (hb : 0 < b) (c : String)
    (hmem : c = "perfect" ∨ c = "good" ∨ c = "acceptable")
    (h : tempoCompatibility a b = c) : tempoCompatibility b a = c := by
  unfold tempoCompatibility at h ⊢
  rw [abs_sub_comm b a, max_comm b a, min_comm b a]
  split_ifs at h ⊢ <;>
    first
      | exact h
      | (subst h; exact absurd hmem (by decide))

/-- C1 (witness): the amended symmetry instantiated at `(128, 130)`,
whose class is `perfect`. -/
theorem C1_tempo_symmetry_witness : tempoCompatibility 130 128 = "perfect" :=
  C1_tempo_symmetry_amended 128 130 (by norm_num) (by norm_num) "perfect"
    (Or.inl rfl) (by norm_num [tempoCompatibility])

/-- C2 (counterexample): feeding the global fallback plan's
`compatibility` and `timing` dictionaries back through
`_calculate_success_probability` yields `0.6` (base `0.5`, timing bonus
`+0.1`, tempo bonus `0` because the fallback compatibility has no
`tempo` key), not the `0.7` stored in the fallback plan. -/
theorem C2_fallback_rescore_counterexample :
    calcSuccessProbability (createFallbackPlan emptyTrack emptyTrack).compatibility
      (createFallbackPlan emptyTrack emptyTrack).timing = 3/5
    ∧ (createFallbackPlan emptyTrack emptyTrack).success_probability = 7/10
    ∧ (3:ℚ)/5 ≠ 7/10 := by
  refine ⟨?_, rfl, by norm_num⟩
  norm_num +decide [calcSuccessProbability, createFallbackPlan, emptyTrack, tempoBonus]

/-- C2 (amended): re-scoring the global fallback plan's fields is a pure
function of those fields and always yields `0.6`, which differs from the
`0.7` the fallback plan itself carries — the round trip is not
idempotent. -/
theorem C2_fallback_rescore_amended (track_a track_b : Track) :
    calcSuccessProbability (createFallbackPlan track_a track_b).compatibility
      (createFallbackPlan track_a track_b).timing = 3/5
    ∧ (createFallbackPlan track_a track_b).success_probability = 7/10 := by
  constructor
  · norm_num +decide [calcSuccessProbability, createFallbackPlan, tempoBonus]
  · rfl

/-- C3 (counterexample): on the spec's worked example (vocal segment
`{start:150, end:170}`, `outro.start = 160`) the vocal-avoidance walk
leaves the pre-snap cue-out candidate at `160` — the relocation guard
`vocal.end < cue_out` fails because the vocal ends after the candidate —
and the generated cue-out is `160`, not `172`. -/
theorem C3_cue_out_vocal_counterexample :
    avoidVocalsAux analysis_ex.vocals.reverse analysis_ex.outro.start
      analysis_ex.outro.start = 160
    ∧ (generateCuePoints analysis_ex).cue_out = 160
    ∧ (160:ℚ) ≠ 172 := by
  refine ⟨?_, ?_, by norm_num⟩
  · norm_num +decide [avoidVocalsAux, analysis_ex]
  · norm_num +decide [generateCuePoints, analysis_ex, snapCueOut, avoidVocalsAux]

/-- C3 (amended): the cue-out candidate is relocated to
`vocal.end + 2.0` only when the vocal segment ends strictly before the
candidate and the relocated point lies strictly before `outro.start`;
on the worked example (vocal `{150,170}`, `outro.start = 160`) neither
holds, so cue generation leaves the cue-out at `160`. -/
theorem C3_cue_out_vocal_amended :
    (∀ (vocal : Seg) (cue_out outro_start : ℚ),
      avoidVocalsAux [vocal] cue_out outro_start =
        if vocal.«end» < cue_out ∧ vocal.«end» + 2 < outro_start
        then vocal.«end» + 2 else cue_out)
    ∧ (generateCuePoints analysis_ex).cue_out = 160 := by
  constructor
  · intro vocal cue_out outro_start
    simp only [avoidVocalsAux]
    split_ifs <;> tauto
  · norm_num +decide [generateCuePoints, analysis_ex, snapCueOut, avoidVocalsAux]

/-- C4 (counterexample): for `bpmA=128, bpmB=130` the tempo difference
is exactly `2`, so the class is `perfect` (the `diff ≤ 2` rule fires),
not `good`, and the overall score is `(1.0+0.8)/2 = 0.9`, not `0.85`. -/
theorem C4_worked_example_counterexample :
    ((analyzeCompatibility trackA_ex trackB_ex).tempo.getD {}).compatibility = some "perfect"
    ∧ (some "perfect" : Option String) ≠ some "good"
    ∧ (analyzeCompatibility trackA_ex trackB_ex).overall_score = some (9/10)
    ∧ (9:ℚ)/10 ≠ 17/20 := by
  refine ⟨?_, by decide, ?_, by norm_num⟩
  · norm_num +decide [analyzeCompatibility, trackA_ex, trackB_ex, tempoCompatibility]
  · norm_num +decide [analyzeCompatibility, trackA_ex, trackB_ex, tempoCompatibility,
      tempoScore, harmonicScore]

/-- C4 (amended): on the worked example (`bpmA=128, bpmB=130`,
`camelotA="8B"`, `camelotB="9B"`) the tempo class is `perfect`, the
harmonic class is `compatible`, the overall score is
`(1.0+0.8)/2 = 0.9`, and the selected style is `crossfade` via the
first rule (`score ≥ 0.8` and tempo in `{perfect, good}`). -/
theorem C4_worked_example_amended :
    ((analyzeCompatibility trackA_ex trackB_ex).tempo.getD {}).compatibility = some "perfect"
    ∧ ((analyzeCompatibility trackA_ex trackB_ex).harmonic.getD {}).compatibility
        = some "compatible"
    ∧ (analyzeCompatibility trackA_ex trackB_ex).overall_score = some ((1 + 8/10) / 2)
    ∧ (selectTransitionStyle trackA_ex trackB_ex
        (analyzeCompatibility trackA_ex trackB_ex)).name = "crossfade" := by
  refine ⟨?_, ?_, ?_, ?_⟩ <;>
    norm_num +decide [analyzeCompatibility, trackA_ex, trackB_ex, tempoCompatibility,
      tempoScore, harmonicScore, selectTransitionStyle]

/-- C5 (counterexample): the timing invariant `endTime ≤ durationA`
fails.  For a 10-second outgoing track in `auto` mode, the start time is
clamped to `0` but `endTime = 0 + 16 = 16 > 10`. -/
theorem C5_timing_bounds_counterexample :
    (calcTransitionTiming shortTrack emptyTrack "auto" none).start_time = some 0
    ∧ (calcTransitionTiming shortTrack emptyTrack "auto" none).end_time = some 16
    ∧ shortTrack.duration.getD 180 = 10
    ∧ ¬((16:ℚ) ≤ 10) := by
  refine ⟨?_, ?_, by norm_num [shortTrack], by norm_num⟩ <;>
    norm_num +decide [calcTransitionTiming, shortTrack, emptyTrack, truthyOpt]

/-- C5 (amended): every timing record satisfies `startTime ≥ 0` and
`startTime ≤ max(0, durationA - 4)`, and `endTime = startTime +
mixDuration` — but `endTime` can exceed `durationA` (see the
counterexample), so the claimed upper bound `endTime ≤ durationA` does
not hold in general. -/
theorem C5_timing_bounds_amended (track_a track_b : Track)
    (transition_type : String) (force_time : Option ℚ) :
    ∃ s m : ℚ,
      (calcTransitionTiming track_a track_b transition_type force_time).start_time = some s
      ∧ (calcTransitionTiming track_a track_b transition_type force_time).mix_duration = some m
      ∧ (calcTransitionTiming track_a track_b transition_type force_time).end_time = some (s + m)
      ∧ 0 ≤ s ∧ s ≤ max 0 (track_a.duration.getD 180 - 4) := by
  refine ⟨_, _, rfl, rfl, rfl, le_max_left 0 _, max_le_max le_rfl (min_le_right _ _)⟩

/-- C6: for every analysis record with a non-negative duration (the
well-formedness the claim assumes), the generated cue points satisfy
`0 ≤ cueIn ≤ 0.3·duration` and `0.7·duration ≤ cueOut ≤ duration`. -/
theorem C6_cue_point_invariant (analysis : Analysis) (h : 0 ≤ analysis.duration) :
    0 ≤ (generateCuePoints analysis).cue_in
    ∧ (generateCuePoints analysis).cue_in ≤ analysis.duration * (3/10)
    ∧ analysis.duration * (7/10) ≤ (generateCuePoints analysis).cue_out
    ∧ (generateCuePoints analysis).cue_out ≤ analysis.duration := by
  simp only [generateCuePoints]
  refine ⟨le_max_left 0 _, max_le (by positivity) (min_le_right _ _),
    le_max_left _ _, max_le (by linarith) (min_le_right _ _)⟩

/-- C6 (witness): the invariant instantiated at the concrete 200-second
analysis record. -/
theorem C6_cue_point_invariant_witness :
    0 ≤ analysis_ex.duration
    ∧ (0 ≤ (generateCuePoints analysis_ex).cue_in
       ∧ (generateCuePoints analysis_ex).cue_in ≤ analysis_ex.duration * (3/10)
       ∧ analysis_ex.duration * (7/10) ≤ (generateCuePoints analysis_ex).cue_out
       ∧ (generateCuePoints analysis_ex).cue_out ≤ analysis_ex.duration) :=
  ⟨by norm_num [analysis_ex], C6_cue_point_invariant analysis_ex (by norm_num [analysis_ex])⟩

/-- C7: harmonic compatibility over Camelot code strings is symmetric
whenever the result is `perfect`, `relative`, `compatible` or `clash`,
and the energy classes invert under swapping:
`compat(a,b) = boost ↔ compat(b,a) = drop`. -/
theorem C7_harmonic_symmetry (key_a key_b : String) :
    ((checkHarmonicCompatibility key_a key_b = "perfect"
      ∨ checkHarmonicCompatibility key_a key_b = "relative"
      ∨ checkHarmonicCompatibility key_a key_b = "compatible"
      ∨ checkHarmonicCompatibility key_a key_b = "clash") →
      checkHarmonicCompatibility key_b key_a = checkHarmonicCompatibility key_a key_b)
    ∧ (checkHarmonicCompatibility key_a key_b = "boost"
        ↔ checkHarmonicCompatibility key_b key_a = "drop") := by
  by_cases hu : key_a = "Unknown" ∨ key_b = "Unknown"
  · have e1 : checkHarmonicCompatibility key_a key_b = "unknown" := by
      unfold checkHarmonicCompatibility; rw [if_pos hu]
    have e2 : checkHarmonicCompatibility key_b key_a = "unknown" := by
      unfold checkHarmonicCompatibility; rw [if_pos hu.symm]
    rw [e1, e2]
    exact ⟨fun _ => rfl, by constructor <;> (intro hx; exact absurd hx (by decide))⟩
  · by_cases he : key_a = key_b
    · subst he
      have e1 : checkHarmonicCompatibility key_a key_a = "perfect" := by
        unfold checkHarmonicCompatibility; rw [if_neg hu, if_pos rfl]
      rw [e1]
      exact ⟨fun _ => rfl, by constructor <;> (intro hx; exact absurd hx (by decide))⟩
    · have hu' : ¬(key_b = "Unknown" ∨ key_a = "Unknown") := fun hx => hu hx.symm
      have he' : key_b ≠ key_a := fun hx => he hx.symm
      rcases checkHarmonic_cases key_a key_b hu he with
        ⟨hpa, e1⟩ | ⟨hpb, e1⟩ | ⟨na, la, nb, lb, hpa, hpb, e1⟩
      · have e2 : checkHarmonicCompatibility key_b key_a = "unknown" := by
          unfold checkHarmonicCompatibility
          rw [if_neg hu', if_neg he', hpa]
          rcases parseCamelot key_b with _ | ⟨nb, lb⟩ <;> rfl
        rw [e1, e2]
        exact ⟨fun _ => rfl, by constructor <;> (intro hx; exact absurd hx (by decide))⟩
      · have e2 : checkHarmonicCompatibility key_b key_a = "unknown" := by
          unfold checkHarmonicCompatibility
          rw [if_neg hu', if_neg he', hpb]
        rw [e1, e2]
        exact ⟨fun _ => rfl, by constructor <;> (intro hx; exact absurd hx (by decide))⟩
      · have e2 : checkHarmonicCompatibility key_b key_a = camelotClass nb lb na la := by
          unfold checkHarmonicCompatibility
          rw [if_neg hu', if_neg he', hpa, hpb]
        rw [e1, e2]
        rcases camelotClass_swap_spec na nb la lb with ⟨hs, hb1, hb2⟩ | ⟨h1, h2⟩ | ⟨h1, h2⟩
        · refine ⟨fun _ => hs, ?_, ?_⟩
          · intro hx; exact absurd hx hb1
          · intro hx; rw [hs] at hx; exact absurd hx hb2
        · refine ⟨fun hmem => ?_, fun _ => h2, fun _ => h1⟩
          rw [h1] at hmem
          exact absurd hmem (by decide)
        · refine ⟨fun hmem => ?_, ?_, ?_⟩
          · rw [h1] at hmem
            exact absurd hmem (by decide)
          · intro hx; rw [h1] at hx; exact absurd hx (by decide)
          · intro hx; rw [h2] at hx; exact absurd hx (by decide)

/-- C7 (witness): the symmetry applied to the concrete pair
`("8B", "9B")` (class `compatible`) and the inversion at
`("3B", "8B")` (classes `boost`/`drop`). -/
theorem C7_harmonic_symmetry_witness :
    checkHarmonicCompatibility "9B" "8B" = checkHarmonicCompatibility "8B" "9B"
    ∧ (checkHarmonicCompatibility "3B" "8B" = "boost"
        ↔ checkHarmonicCompatibility "8B" "3B" = "drop") :=
  ⟨(C7_harmonic_symmetry "8B" "9B").1 (Or.inr (Or.inr (Or.inl (by decide)))),
   (C7_harmonic_symmetry "3B" "8B").2⟩

/-- C8: whenever the beatmatch planner reports `stretchNeeded = true`
(the `2 < diff ≤ 6` branch), both stretch factors lie in
`[0.94, 1.06]` — the branch clamps each factor explicitly. -/
theorem C8_stretch_factor_bounds (track_a track_b : Track) (timing : Timing)
    (h : (planBeatmatching track_a track_b timing).stretch_needed = true) :
    ∃ sa sb : ℚ,
      (planBeatmatching track_a track_b timing).stretch_factor_a = some sa
      ∧ (planBeatmatching track_a track_b timing).stretch_factor_b = some sb
      ∧ 94/100 ≤ sa ∧ sa ≤ 106/100 ∧ 94/100 ≤ sb ∧ sb ≤ 106/100 := by
  simp only [planBeatmatching] at h ⊢
  split_ifs at h ⊢
  exact ⟨_, _, rfl, rfl, le_max_left _ _,
    max_le (by norm_num) (min_le_left _ _), le_max_left _ _,
    max_le (by norm_num) (min_le_left _ _)⟩

/-- C8 (witness): the bound applied at the concrete pair
`(120 BPM, 124 BPM)`, which needs stretching. -/
theorem C8_stretch_factor_bounds_witness :
    (planBeatmatching track120 track124 {}).stretch_needed = true
    ∧ ∃ sa sb : ℚ,
        (planBeatmatching track120 track124 {}).stretch_factor_a = some sa
        ∧ (planBeatmatching track120 track124 {}).stretch_factor_b = some sb
        ∧ 94/100 ≤ sa ∧ sa ≤ 106/100 ∧ 94/100 ≤ sb ∧ sb ≤ 106/100 :=
  ⟨by norm_num +decide [planBeatmatching, track120, track124],
   C8_stretch_factor_bounds track120 track124 {}
     (by norm_num +decide [planBeatmatching, track120, track124])⟩

/-- C9: when the body of `plan_transition` raises, the `try/except`
wrapper returns `_create_fallback_plan`, and the fallback plan carries
style `quick_cut`, no beatmatching (`stretchNeeded = false`,
`syncMethod = "none"`), plain linear fades for both tracks, empty
effect lists, and `successProbability = 0.7` — for every pair of track
records and every exception. -/
theorem C9_exception_fallback (track_a track_b : Track) (e : String) :
    planTransitionHandle track_a track_b (Except.error e) = createFallbackPlan track_a track_b
    ∧ (createFallbackPlan track_a track_b).style.name = "quick_cut"
    ∧ (createFallbackPlan track_a track_b).beatmatch.stretch_needed = false
    ∧ (createFallbackPlan track_a track_b).beatmatch.sync_method = "none"
    ∧ (createFallbackPlan track_a track_b).stem_plan.track_a.fade = some "linear_out"
    ∧ (createFallbackPlan track_a track_b).stem_plan.track_b.fade = some "linear_in"
    ∧ (createFallbackPlan track_a track_b).effects.track_a = []
    ∧ (createFallbackPlan track_a track_b).effects.track_b = []
    ∧ (createFallbackPlan track_a track_b).success_probability = 7/10 :=
  ⟨rfl, rfl, rfl, rfl, rfl, rfl, rfl, rfl, rfl⟩

/-- C10: any code equal to itself and different from the literal
`"Unknown"` classifies as `perfect` — even a malformed code such as
`"XYZ"`, because string equality is tested before parsing — and the
`unknown` result can only arise for a non-`Unknown` first code when the
two codes differ. -/
theorem C10_equal_malformed_codes (key_a key_b : String) (ha : key_a ≠ "Unknown") :
    checkHarmonicCompatibility key_a key_a = "perfect"
    ∧ (checkHarmonicCompatibility key_a key_b = "unknown"
        → key_b = "Unknown" ∨ key_a ≠ key_b) := by
  have hperf : checkHarmonicCompatibility key_a key_a = "perfect" := by
    unfold checkHarmonicCompatibility
    rw [if_neg (fun h => h.elim ha ha), if_pos rfl]
  refine ⟨hperf, fun h => ?_⟩
  by_cases hb : key_b = "Unknown"
  · exact Or.inl hb
  · refine Or.inr (fun hab => ?_)
    rw [← hab, hperf] at h
    exact absurd h (by decide)

/-- C10 (witness): the malformed code `"XYZ"` paired with itself
classifies as `perfect`. -/
theorem C10_equal_malformed_codes_witness :
    checkHarmonicCompatibility "XYZ" "XYZ" = "perfect"
    ∧ (checkHarmonicCompatibility "XYZ" "XYZ" = "unknown"
        → ("XYZ" : String) = "Unknown" ∨ ("XYZ" : String) ≠ "XYZ") :=
  C10_equal_malformed_codes "XYZ" "XYZ" (by decide)

end AutoDJ
